import Mathlib

/-!
Verification development for the YouTube transcript MCP server
(`src/youtube_transcript_mcp_server.py`).

The Python source is shallowly embedded below:
  * the two URL regular expressions and the video-id validation regex are
    embedded via a small fueled backtracking matcher (`matchesF`) mirroring
    Python `re` semantics (leftmost search, left-biased alternation, greedy
    star, `$` matching at end of string or before a single trailing newline);
  * the external captioning library (`youtube_transcript_api`) is modelled
    as a `Provider` record of attempt-indexed responses, with errors as the
    `PyErr` inductive mirroring the exception classes;
  * the retry loop `fetch_transcript_with_retry` is embedded as structural
    recursion on remaining attempts, recording provider list-call counts and
    back-off sleeps in a `FetchTrace`;
  * the MCP tool functions are total `String`-valued functions whose
    `match` arms mirror the `try/except` chains of the source.
-/

/- Batteries marks the rational-number arithmetic `@[irreducible]`, which
blocks `decide`/`rfl` evaluation of the embedded formatter on concrete
segments; restore the default reducibility (kernel checking is unaffected). -/
set_option allowUnsafeReducibility true in
attribute [semireducible] Rat.mul Rat.inv Rat.add Rat.sub Rat.ofScientific

deriving instance DecidableEq for Except

namespace YT

/-! ### Character classes and Python string helpers -/

/-- The video-id alphabet `[a-zA-Z0-9_-]` of the source's regexes. -/
def isVideoIdChar (c : Char) : Bool :=
  ('a' ≤ c && c ≤ 'z') || ('A' ≤ c && c ≤ 'Z') || ('0' ≤ c && c ≤ '9') ||
    c == '_' || c == '-'

/-- Python whitespace for `str.strip` and the regex class `\s`:
space, tab, newline, carriage return, vertical tab, form feed. -/
def pyWS (c : Char) : Bool :=
  c == ' ' || c == '\t' || c == '\n' || c == '\r' || c == '\x0b' || c == '\x0c'

/-- Python `str.strip()`: drop leading and trailing whitespace. -/
def pyStrip (s : String) : String :=
  String.mk (((s.data.dropWhile pyWS).reverse.dropWhile pyWS).reverse)

/-- Python `str.lower()` restricted to ASCII, the only case the format
dispatch of the source compares against (`"json"`, `"raw"`). -/
def pyLowerChar (c : Char) : Char :=
  if 'A' ≤ c && c ≤ 'Z' then Char.ofNat (c.toNat + 32) else c

def pyLower (s : String) : String := String.mk (s.data.map pyLowerChar)

/-- Python `f"{n:02d}"`: decimal, zero-padded to width 2, the sign counting
towards the width. -/
def zfill2 (n : Int) : String :=
  if n < 0 then "-" ++ toString n.natAbs
  else
    let d := toString n.natAbs
    if d.length < 2 then "0" ++ d else d

/-- Python `int()` truncation towards zero on a rational
(`Rat.floor` is used rather than `⌊⌋` so the kernel can evaluate it;
they agree, see `ratFloor_eq_intFloor`). -/
def pyInt (q : Rat) : Int := if q < 0 then -((-q).floor) else q.floor

/-- Python `%` on numbers (sign follows the divisor): `a - b * ⌊a / b⌋`. -/
def pyMod (a b : Rat) : Rat := a - b * ((a / b).floor : Int)

/-! ### A backtracking regex matcher (Python `re` semantics)

`matchesF re l` returns, in Python's backtracking priority order, every way
`re` can match a prefix of `l`: each entry is the remaining suffix together
with the text captured by group 1 (if a `group` node participated).  The
head of the list is the match `re.search`/`re.match` would commit to at this
position.  `star` is greedy (more iterations first) and, like Python, never
counts an iteration that consumed nothing. -/

inductive RE where
  | eps
  | cls (p : Char → Bool)
  | lit (s : List Char)
  | seq (a b : RE)
  | alt (a b : RE)
  | star (a : RE)
  | group (a : RE)
  | dollar

/-- Combine the group-1 captures of two sequenced submatches (at most one of
the two patterns below contains a group, so there is no overwrite). -/
def capsOr (a b : Option (List Char)) : Option (List Char) :=
  match a with
  | some x => some x
  | none => b

/-- Greedy star iteration: given the body's matcher `m`, try (in priority
order) one more strictly-consuming iteration followed by the rest of the
star, and lastly zero further iterations.  The fuel only bounds the number
of iterations of *this* star; since every counted iteration consumes at
least one character, starting fuel `l.length + 1` (see `matchesF`) is always
sufficient. -/
def starGo (m : List Char → List (List Char × Option (List Char))) :
    Nat → List Char → List (List Char × Option (List Char))
  | 0, l => [(l, none)]
  | fuel + 1, l =>
    (((m l).filter (fun r => r.1.length < l.length)).flatMap
      (fun r => (starGo m fuel r.1).map (fun r2 => (r2.1, capsOr r.2 r2.2))))
    ++ [(l, none)]

def matchesF : RE → List Char → List (List Char × Option (List Char))
  | .eps, l => [(l, none)]
  | .cls p, l =>
    match l with
    | [] => []
    | c :: rest => if p c then [(rest, none)] else []
  | .lit s, l => if s.isPrefixOf l then [(l.drop s.length, none)] else []
  | .seq a b, l =>
    (matchesF a l).flatMap (fun r =>
      (matchesF b r.1).map (fun r2 => (r2.1, capsOr r.2 r2.2)))
  | .alt a b, l => matchesF a l ++ matchesF b l
  | .group a, l =>
    (matchesF a l).map (fun r => (r.1, some (l.take (l.length - r.1.length))))
  | .dollar, l => if l = [] ∨ l = ['\n'] then [(l, none)] else []
  | .star a, l => starGo (matchesF a) (l.length + 1) l

def RE.plus (a : RE) : RE := .seq a (.star a)

def RE.opt (a : RE) : RE := .alt a .eps

def RE.repN : Nat → RE → RE
  | 0, _ => .eps
  | n + 1, a => .seq a (RE.repN n a)

def relit (s : String) : RE := .lit s.data

/-- Model of `re.search`: scan start positions left to right; at the first position
where the pattern matches at all, commit to the highest-priority match and
return its group 1 capture. -/
def searchAux (re : RE) : List Char → Option (Option (List Char))
  | [] =>
    match matchesF re [] with
    | r :: _ => some r.2
    | [] => none
  | c :: rest =>
    match matchesF re (c :: rest) with
    | r :: _ => some r.2
    | [] => searchAux re rest

def re_search (re : RE) (s : String) : Option (Option (List Char)) :=
  searchAux re s.data

/-- Truthiness of `re.match(...)` for a pattern anchored with `^`:
match at position 0 only. -/
def re_match (re : RE) (s : String) : Bool :=
  !(matchesF re s.data).isEmpty

/-! ### The source's regex patterns -/

/-- Python `.`: any character except newline. -/
def pyDot : RE := .cls (fun c => !(c == '\n'))

/-- The non-capturing alternation of source pattern 1:
`(?:v=|v\/|vi=|vi\/|youtu\.be\/|embed\/|\/v\/|\/e\/|watch\?v=|youtube\.com\/user\/[^#]*#[^\/]*\/)`. -/
def p1Alts : RE :=
  .alt (relit "v=") (.alt (relit "v/") (.alt (relit "vi=") (.alt (relit "vi/")
    (.alt (relit "youtu.be/") (.alt (relit "embed/") (.alt (relit "/v/")
      (.alt (relit "/e/") (.alt (relit "watch?v=")
        (.seq (relit "youtube.com/user/")
          (.seq (.star (.cls (fun c => !(c == '#'))))
            (.seq (relit "#")
              (.seq (.star (.cls (fun c => !(c == '/'))))
                (relit "/")))))))))))))

/-- Source pattern 1:
`(?:...)*([^#\&\?]*)` with the alternation `p1Alts` under the star. -/
def pattern1 : RE :=
  .seq (.star p1Alts)
    (.group (.star (.cls (fun c => !(c == '#' || c == '&' || c == '?')))))

/-- The inner alternation of source pattern 2:
`[^\/]+\/.+\/|(?:v|e(?:mbed)?)\/|.*[?&]v=`. -/
def p2Inner : RE :=
  .alt
    (.seq (RE.plus (.cls (fun c => !(c == '/'))))
      (.seq (relit "/") (.seq (RE.plus pyDot) (relit "/"))))
    (.alt
      (.seq (.alt (relit "v") (.seq (relit "e") (RE.opt (relit "mbed")))) (relit "/"))
      (.seq (.star pyDot) (.seq (.cls (fun c => c == '?' || c == '&')) (relit "v="))))

/-- The capture class of source pattern 2: `[^"&?\/\s]`. -/
def p2Class : RE :=
  .cls (fun c => !(c == '"' || c == '&' || c == '?' || c == '/' || pyWS c))

/-- Source pattern 2:
`(?:youtube\.com\/(?:...)|youtu\.be\/)([^"&?\/\s]{11})`. -/
def pattern2 : RE :=
  .seq (.alt (.seq (relit "youtube.com/") p2Inner) (relit "youtu.be/"))
    (.group (RE.repN 11 p2Class))

/-! ### Error taxonomy -/

/-- The exception classes the source raises or catches, with the message
`str(e)` would produce.  `genericException` stands for a plain Python
`Exception` (used by the source for parse-retry exhaustion and the synthetic
retries-exhausted error) and for any error outside the taxonomy. -/
inductive PyErr where
  | youTubeURLError (msg : String)
  | transcriptsDisabled
  | videoUnavailable
  | noTranscriptFound (msg : String)
  | requestBlocked
  | youtubeRequestFailed
  | xmlParseError (msg : String)
  | genericException (msg : String)
deriving DecidableEq, Repr

/-! ### `extract_video_id` and `validate_video_id` -/

/-- The `validate_video_id` regex `^[a-zA-Z0-9_-]{11}$`. -/
def videoIdAnchored : RE := .seq (RE.repN 11 (.cls isVideoIdChar)) .dollar

/-- Source `validate_video_id`: `bool(re.match(r'^[a-zA-Z0-9_-]{11}$', video_id))`. -/
def validate_video_id (s : String) : Bool := re_match videoIdAnchored s

/-- The candidate-check regex `^[a-zA-Z0-9_-]+$` inside `extract_video_id`. -/
def videoIdPlusAnchored : RE := .seq (RE.plus (.cls isVideoIdChar)) .dollar

/-- The candidate acceptance test of `extract_video_id`:
`len(video_id) == 11 and re.match(r'^[a-zA-Z0-9_-]+$', video_id)`. -/
def checkCandidate (g : List Char) : Bool :=
  g.length == 11 && re_match videoIdPlusAnchored (String.mk g)

/-- One iteration of `extract_video_id`'s pattern loop: search, and if a
match is found, accept its group 1 only if `checkCandidate` passes (a failed
check falls through to the next pattern, not to other match positions). -/
def tryPattern (re : RE) (url : String) : Option String :=
  match re_search re url with
  | some (some g) => if checkCandidate g then some (String.mk g) else none
  | some none => none
  | none => none

/-- Source `extract_video_id`: try `pattern1` then `pattern2`; if neither yields a
valid 11-character candidate, raise `YouTubeURLError`. -/
def extract_video_id (url : String) : Except PyErr String :=
  match tryPattern pattern1 url with
  | some v => .ok v
  | none =>
    match tryPattern pattern2 url with
    | some v => .ok v
    | none => .error (.youTubeURLError ("Could not extract valid video ID from URL: " ++ url))

/-! ### Data model: segments, tracks, provider -/

/-- One caption segment, decoded to the canonical record (the source accepts
both dicts and `FetchedTranscriptSnippet` objects carrying these fields;
a missing text defaults to the empty string, a missing start to 0). -/
structure Segment where
  text : String
  start : Rat
  duration : Option Rat := none
deriving DecidableEq, Repr

/-- One transcript track's metadata, as enumerated by the provider. -/
structure Track where
  language : String
  language_code : String
  is_generated : Bool
  is_translatable : Bool
deriving DecidableEq, Repr

/-- The external captioning provider (`YouTubeTranscriptApi`), modelled as
attempt-indexed responses: `listTranscripts n` is the outcome of the
track-listing network call on (0-based) attempt `n`, and `fetch n t` the
outcome of fetching track `t`'s content on attempt `n`. -/
structure Provider where
  listTranscripts : Nat → Except PyErr (List Track)
  fetch : Nat → Track → Except PyErr (List Segment)

/-- The external library's `transcript_list.find_transcript([lang])`:
the first enumerated track whose language code matches, else the
`NoTranscriptFound` signal (modelled as `none`, which the source's inner
`except NoTranscriptFound: continue` turns into trying the next language). -/
def find_transcript (tracks : List Track) (lang : String) : Option Track :=
  tracks.find? (fun t => t.language_code == lang)

/-- Track selection (source lines 180-200): iterate the language preference
list, first match wins; otherwise fall back to the first enumerated track
and use its language code; no track at all yields `none` (the source then
raises `NoTranscriptFound`). -/
def selectTranscript (tracks : List Track) : List String → Option (Track × String)
  | [] =>
    match tracks with
    | [] => none
    | t :: _ => some (t, t.language_code)
  | lang :: rest =>
    match find_transcript tracks lang with
    | some t => some (t, lang)
    | none => selectTranscript tracks rest

/-! ### Format renderers -/

/-- Source `format_transcript_text` (lines 94-124): one `[MM:SS] text` line
per segment with non-empty stripped text, joined by newlines. -/
def format_transcript_text (transcript_data : List Segment) : String :=
  let formatted_lines := transcript_data.foldl (fun acc segment =>
    let text := pyStrip segment.text
    let start_time := segment.start
    let minutes : Int := (start_time / 60).floor
    let seconds : Int := pyInt (pyMod start_time 60)
    let timestamp := zfill2 minutes ++ ":" ++ zfill2 seconds
    if text ≠ "" then acc ++ ["[" ++ timestamp ++ "] " ++ text] else acc) []
  String.intercalate "\n" formatted_lines

/-- JSON string escaping (models the stdlib `json.dumps` escaping for the
characters that can occur in caption text). -/
def jsonEscape (s : String) : String :=
  s.data.foldl (fun acc c =>
    acc ++ (if c == '"' then "\\\"" else if c == '\\' then "\\\\"
      else if c == '\n' then "\\n" else if c == '\t' then "\\t"
      else if c == '\r' then "\\r" else String.singleton c)) ""

/-- Rendering of a numeric field.  Models the stdlib's number rendering;
no claim inspects the exact digits. -/
def jsonNum (q : Rat) : String :=
  if q.den == 1 then toString q.num else toString q

/-- One segment as a `json.dumps(..., indent=2)` object with keys in the
source's insertion order `text`, `start`, `duration`. -/
def segmentJsonBlock (s : Segment) : String :=
  "  \x7b\n    \"text\": \"" ++ jsonEscape s.text ++ "\",\n    \"start\": " ++
    jsonNum s.start ++ ",\n    \"duration\": " ++
    (match s.duration with
     | some d => jsonNum d
     | none => "null") ++ "\n  \x7d"

/-- Source `format_transcript_json` (lines 126-153): the segment list as a
pretty-printed JSON array (stdlib `json.dumps(json_data, indent=2,
ensure_ascii=False)`, modelled). -/
def format_transcript_json (transcript_data : List Segment) : String :=
  match transcript_data with
  | [] => "[]"
  | _ =>
    "[\n" ++ String.intercalate ",\n" (transcript_data.map segmentJsonBlock) ++ "\n]"

/-- Models Python `str()` of one segment (a dict repr). -/
def pyStrSegment (s : Segment) : String :=
  "\x7b'text': '" ++ s.text ++ "', 'start': " ++ jsonNum s.start ++
    ", 'duration': " ++
    (match s.duration with
     | some d => jsonNum d
     | none => "None") ++ "\x7d"

/-- Models Python `str(transcript_data)` for the `raw` format — the spec
calls this an implementation-defined pass-through; any stable
stringification satisfies it. -/
def pyStr (transcript_data : List Segment) : String :=
  "[" ++ String.intercalate ", " (transcript_data.map pyStrSegment) ++ "]"

/-! ### The retry orchestrator -/

/-- Observable side effects of `fetch_transcript_with_retry`: how many times
the provider's track-listing call ran, and the back-off sleeps (in seconds)
performed, in order. -/
structure FetchTrace where
  listCalls : Nat
  sleeps : List Nat
deriving DecidableEq, Repr

/-- What one attempt-level `except` dispatch decides to do. -/
inductive StepOut where
  | done (r : Except PyErr (List Segment × String))
  | retry (sleepSec : Nat) (remember : Option PyErr)
deriving Repr

/-- The attempt-level `except` chain of the source (lines 215-230), shared
by errors escaping the listing call and non-parse errors escaping the
content fetch:
  * disabled / unavailable / no-transcript re-raise immediately;
  * `RequestBlocked` sleeps `5 * (attempt + 1)` and retries, or re-raises on
    the final attempt;
  * `YouTubeRequestFailed` remembers the error, sleeps `1 * (attempt + 1)`
    and retries, or (final attempt) lets the loop end, after which the
    source raises `last_error` — i.e. this very error;
  * anything else is uncaught and propagates out of the function. -/
def attemptDispatch (attempt max_retries : Nat) (e : PyErr) : StepOut :=
  match e with
  | .transcriptsDisabled => .done (.error e)
  | .videoUnavailable => .done (.error e)
  | .noTranscriptFound _ => .done (.error e)
  | .requestBlocked =>
    if attempt < max_retries - 1 then .retry (5 * (attempt + 1)) none
    else .done (.error e)
  | .youtubeRequestFailed =>
    if attempt < max_retries - 1 then .retry (1 * (attempt + 1)) (some e)
    else .done (.error e)
  | _ => .done (.error e)

/-- The loop body of `fetch_transcript_with_retry` (source lines 172-233),
as structural recursion on the number of remaining iterations;
`attempt` is the 0-based loop counter (`remaining + attempt = max_retries`
at every call).  Running out of iterations models the loop's normal exit:
`raise last_error or Exception("All retry attempts failed")`. -/
def fetchGo (p : Provider) (video_id : String) (language_codes : List String)
    (max_retries : Nat) :
    Nat → Nat → Option PyErr → FetchTrace →
      Except PyErr (List Segment × String) × FetchTrace
  | 0, _, last_error, tr =>
    (.error (last_error.getD (.genericException "All retry attempts failed")), tr)
  | remaining + 1, attempt, last_error, tr =>
    let tr := { tr with listCalls := tr.listCalls + 1 }
    match p.listTranscripts attempt with
    | .error e =>
      match attemptDispatch attempt max_retries e with
      | .done r => (r, tr)
      | .retry sleepSec remember =>
        fetchGo p video_id language_codes max_retries remaining (attempt + 1)
          (match remember with
           | some e2 => some e2
           | none => last_error)
          { tr with sleeps := tr.sleeps ++ [sleepSec] }
    | .ok tracks =>
      match selectTranscript tracks language_codes with
      | none =>
        (.error (.noTranscriptFound ("No transcripts available for video " ++ video_id)), tr)
      | some (transcript, used_language) =>
        match p.fetch attempt transcript with
        | .ok transcript_data => (.ok (transcript_data, used_language), tr)
        | .error (.xmlParseError _) =>
          if attempt < max_retries - 1 then
            fetchGo p video_id language_codes max_retries remaining (attempt + 1)
              last_error { tr with sleeps := tr.sleeps ++ [2 ^ attempt] }
          else
            (.error (.genericException ("Failed to parse transcript XML after " ++
              toString max_retries ++
              " attempts. This might be due to YouTube API changes or rate limiting.")), tr)
        | .error e =>
          match attemptDispatch attempt max_retries e with
          | .done r => (r, tr)
          | .retry sleepSec remember =>
            fetchGo p video_id language_codes max_retries remaining (attempt + 1)
              (match remember with
               | some e2 => some e2
               | none => last_error)
              { tr with sleeps := tr.sleeps ++ [sleepSec] }

/-- Source `fetch_transcript_with_retry` (lines 155-233), returning the
result (or escaping exception) together with the observable trace. -/
def fetch_transcript_with_retry (p : Provider) (video_id : String)
    (language_codes : List String) (max_retries : Nat := 3) :
    Except PyErr (List Segment × String) × FetchTrace :=
  fetchGo p video_id language_codes max_retries max_retries 0 none ⟨0, []⟩

/-! ### The four public operations

Each is a *total* `String`-valued function: every `raise` path of the
source's pipeline surfaces here as an `Except.error` which the `match`
arms below — mirroring the tool's `except` chain — turn into a string, so
no error can escape the boundary. -/

/-- The `except` chain of `get_transcript_from_url` (source lines 270-281). -/
def urlToolErrString : PyErr → String
  | .youTubeURLError m => "URL Error: " ++ m
  | .transcriptsDisabled => "Error: Transcripts are disabled for this video"
  | .videoUnavailable => "Error: Video is unavailable or does not exist"
  | .requestBlocked => "Error: Request blocked. Please try again later"
  | .youtubeRequestFailed => "Error: YouTube request failed. Please try again later"
  | .noTranscriptFound m => "Unexpected error: " ++ m
  | .xmlParseError m => "Unexpected error: " ++ m
  | .genericException m => "Unexpected error: " ++ m

/-- The `except` chain of `get_transcript_from_id` and
`list_available_transcripts` (source lines 318-327 and 374-383); a
`YouTubeURLError` would fall to the `except Exception` catch-all. -/
def idToolErrString : PyErr → String
  | .transcriptsDisabled => "Error: Transcripts are disabled for this video"
  | .videoUnavailable => "Error: Video is unavailable or does not exist"
  | .requestBlocked => "Error: Request blocked. Please try again later"
  | .youtubeRequestFailed => "Error: YouTube request failed. Please try again later"
  | .youTubeURLError m => "Unexpected error: " ++ m
  | .noTranscriptFound m => "Unexpected error: " ++ m
  | .xmlParseError m => "Unexpected error: " ++ m
  | .genericException m => "Unexpected error: " ++ m

/-- Source `get_transcript_from_url` (lines 235-281). -/
def get_transcript_from_url (p : Provider) (url : String)
    (language : String := "en") (format_type : String := "text") : String :=
  match extract_video_id url with
  | .error e => urlToolErrString e
  | .ok video_id =>
    let language_preference := if language != "en" then [language, "en"] else ["en"]
    match (fetch_transcript_with_retry p video_id language_preference).1 with
    | .error e => urlToolErrString e
    | .ok (transcript_data, used_language) =>
      if pyLower format_type == "json" then format_transcript_json transcript_data
      else if pyLower format_type == "raw" then pyStr transcript_data
      else
        "Transcript for " ++ url ++ " (Language: " ++ used_language ++ "):\n\n" ++
          format_transcript_text transcript_data

/-- Source `get_transcript_from_id` (lines 283-327). -/
def get_transcript_from_id (p : Provider) (video_id : String)
    (language : String := "en") (format_type : String := "text") : String :=
  if !validate_video_id video_id then
    "Error: Invalid video ID format. Must be 11 characters: " ++ video_id
  else
    let language_preference := if language != "en" then [language, "en"] else ["en"]
    match (fetch_transcript_with_retry p video_id language_preference).1 with
    | .error e => idToolErrString e
    | .ok (transcript_data, used_language) =>
      if pyLower format_type == "json" then format_transcript_json transcript_data
      else if pyLower format_type == "raw" then pyStr transcript_data
      else
        "Transcript for video " ++ video_id ++ " (Language: " ++ used_language ++ "):\n\n" ++
          format_transcript_text transcript_data

/-- One numbered entry of the listing report (source lines 367-370). -/
def formatTrackEntry (i : Nat) (t : Track) : String :=
  toString i ++ ". " ++ t.language ++ " (" ++ t.language_code ++ ")\n" ++
    "   Generated: " ++ (if t.is_generated then "Yes" else "No") ++ "\n" ++
    "   Translatable: " ++ (if t.is_translatable then "Yes" else "No") ++ "\n\n"

/-- Source `list_available_transcripts` (lines 329-383).  The listing call
is made once, outside the retry orchestrator. -/
def list_available_transcripts (p : Provider) (video_url_or_id : String) : String :=
  match
    (match extract_video_id video_url_or_id with
     | .ok v => Except.ok v
     | .error _ =>
       if !validate_video_id video_url_or_id then Except.error ()
       else Except.ok video_url_or_id) with
  | .error _ => "Error: Invalid video ID or URL: " ++ video_url_or_id
  | .ok video_id =>
    match p.listTranscripts 0 with
    | .error e => idToolErrString e
    | .ok tracks =>
      if tracks.isEmpty then "No transcripts available for video " ++ video_id
      else
        (tracks.enumFrom 1).foldl (fun acc it => acc ++ formatTrackEntry it.1 it.2)
          ("Available transcripts for video " ++ video_id ++ ":\n\n")

/-- Source `get_transcript_resource` (lines 385-397): delegates to
`get_transcript_from_id` with its default arguments. -/
def get_transcript_resource (p : Provider) (video_id : String) : String :=
  get_transcript_from_id p video_id

/-- An error string of the spec's propagation policy: prefixed by one of
the three categories the source uses (`Error:`, `URL Error:`,
`Unexpected error:`). -/
def categoryPrefixed (s : String) : Bool :=
  "Error: ".data.isPrefixOf s.data || "URL Error: ".data.isPrefixOf s.data
    || "Unexpected error: ".data.isPrefixOf s.data

/-! Concrete providers used by the witness theorems. -/

def provDisabled : Provider :=
  ⟨fun _ => .error .transcriptsDisabled, fun _ _ => .error .transcriptsDisabled⟩

def provUnavailable : Provider :=
  ⟨fun _ => .error .videoUnavailable, fun _ _ => .error .videoUnavailable⟩

def provEmpty : Provider := ⟨fun _ => .ok [], fun _ _ => .ok []⟩

def esTrack : Track := ⟨"Spanish", "es", false, true⟩

def esSegment : Segment := ⟨"hola", 1, none⟩

def provEs : Provider := ⟨fun _ => .ok [esTrack], fun _ _ => .ok [esSegment]⟩

def provParse23 : Provider :=
  ⟨fun _ => .ok [esTrack],
   fun n _ => if n < 2 then .error (.xmlParseError "bad") else .ok [esSegment]⟩

def provParseAll : Provider :=
  ⟨fun _ => .ok [esTrack], fun _ _ => .error (.xmlParseError "bad")⟩

/-! ### Spec-side characterisation of the text renderer (claim C6)

`textLine`/`renderTextSpec` follow the spec's words: one `[MM:SS] text` line
per segment with non-empty trimmed text, `minutes = floor(start/60)`,
`seconds = floor(start) mod 60`, dropped segments emit nothing, lines joined
by newline. -/

def textLine (seg : Segment) : Option String :=
  if pyStrip seg.text = "" then none
  else
    some ("[" ++ (zfill2 (Int.floor (seg.start / 60)) ++ ":" ++
      zfill2 (Int.floor seg.start % 60)) ++ "] " ++ pyStrip seg.text)

def renderTextSpec (segments : List Segment) : String :=
  String.intercalate "\n" (segments.filterMap textLine)

lemma ratFloor_eq_intFloor (q : ℚ) : q.floor = Int.floor q := by
  rw [Rat.floor_def', Rat.floor_def]

lemma floor_div_sixty (q : ℚ) : Int.floor (q / (60 : ℚ)) = Int.floor q / 60 := by
  have h60 : (0 : ℚ) < 60 := by norm_num
  have hfl : ((Int.floor q : ℤ) : ℚ) ≤ q := Int.floor_le q
  have hfl2 : q < ((Int.floor q : ℤ) : ℚ) + 1 := Int.lt_floor_add_one q
  have hdm : 60 * (Int.floor q / 60) + Int.floor q % 60 = Int.floor q :=
    Int.ediv_add_emod _ 60
  have hr0 : (0 : ℤ) ≤ Int.floor q % 60 := Int.emod_nonneg _ (by norm_num)
  have hr1 : Int.floor q % 60 ≤ 59 := by
    have := Int.emod_lt_of_pos (Int.floor q) (show (0 : ℤ) < 60 by norm_num)
    omega
  have hdmQ : (60 : ℚ) * ((Int.floor q / 60 : ℤ) : ℚ) + ((Int.floor q % 60 : ℤ) : ℚ)
      = ((Int.floor q : ℤ) : ℚ) := by exact_mod_cast congrArg (fun z : ℤ => (z : ℚ)) hdm
  have hr0Q : (0 : ℚ) ≤ ((Int.floor q % 60 : ℤ) : ℚ) := by exact_mod_cast hr0
  have hr1Q : ((Int.floor q % 60 : ℤ) : ℚ) ≤ 59 := by exact_mod_cast hr1
  rw [Int.floor_eq_iff]
  constructor
  · rw [le_div_iff₀ h60]
    linarith
  · rw [div_lt_iff₀ h60]
    linarith

lemma pyInt_pyMod_sixty (q : ℚ) : pyInt (pyMod q 60) = Int.floor q % 60 := by
  have h60 : (0 : ℚ) < 60 := by norm_num
  have hflle : ((Int.floor (q / 60) : ℤ) : ℚ) ≤ q / 60 := Int.floor_le (q / 60)
  rw [le_div_iff₀ h60] at hflle
  have hmodrw : pyMod q 60 = q - ((60 * Int.floor (q / 60) : ℤ) : ℚ) := by
    unfold pyMod
    rw [ratFloor_eq_intFloor]
    push_cast
    ring
  have h0 : (0 : ℚ) ≤ pyMod q 60 := by
    rw [hmodrw]
    linarith [show ((60 * Int.floor (q / 60) : ℤ) : ℚ)
      = 60 * ((Int.floor (q / 60) : ℤ) : ℚ) by push_cast; ring]
  have hint : pyInt (pyMod q 60) = (pyMod q 60).floor := by
    unfold pyInt
    rw [if_neg (not_lt.mpr h0)]
  rw [hint, ratFloor_eq_intFloor, hmodrw, Int.floor_sub_int, floor_div_sixty,
    Int.emod_def]

/-- The accumulating append loop of the source, in generic form. -/
lemma foldl_if_append {α β : Type} (f : α → β) (P : α → Prop) [DecidablePred P] :
    ∀ (l : List α) (acc : List β),
      l.foldl (fun acc x => if P x then acc ++ [f x] else acc) acc
        = acc ++ l.filterMap (fun x => if P x then some (f x) else none) := by
  intro l
  induction l with
  | nil => intro acc; simp
  | cons x rest ih =>
    intro acc
    simp only [List.foldl_cons, List.filterMap_cons]
    by_cases h : P x
    · simp only [if_pos h, ih, List.append_assoc, List.singleton_append]
    · simp only [if_neg h, ih]

/-- Claim C6: `format_transcript_text` renders one `[MM:SS] text` line per
segment with non-empty stripped text — minutes `⌊start/60⌋`, seconds
`⌊start⌋ mod 60`, zero-padded — drops whitespace-only segments entirely,
joins lines with newline; and on the spec's example it yields exactly
`"[01:05] hello"`. -/
theorem claim_C6 :
    (∀ segments : List Segment, format_transcript_text segments = renderTextSpec segments)
    ∧ format_transcript_text
        [⟨"hello", (654 : ℚ) / 10, none⟩, ⟨"  ", 70, none⟩] = "[01:05] hello" := by
  have hfun : (fun segment : Segment =>
      if pyStrip segment.text ≠ "" then
        some ("[" ++ (zfill2 ((segment.start / 60).floor) ++ ":" ++
          zfill2 (pyInt (pyMod segment.start 60))) ++ "] " ++ pyStrip segment.text)
      else none) = textLine := by
    funext segment
    unfold textLine
    by_cases hc : pyStrip segment.text = ""
    · simp [hc]
    · rw [if_pos hc, if_neg hc, pyInt_pyMod_sixty, ratFloor_eq_intFloor]
  have hall : ∀ segments : List Segment,
      format_transcript_text segments = renderTextSpec segments := by
    intro segments
    unfold format_transcript_text renderTextSpec
    rw [foldl_if_append
      (fun segment : Segment =>
        "[" ++ (zfill2 ((segment.start / 60).floor) ++ ":" ++
          zfill2 (pyInt (pyMod segment.start 60))) ++ "] " ++ pyStrip segment.text)
      (fun segment : Segment => pyStrip segment.text ≠ "") segments []]
    rw [List.nil_append]
    exact congrArg (fun f => String.intercalate "\n" (List.filterMap f segments)) hfun
  exact ⟨hall, by decide⟩

/-! ### Claims C3-C5: the retry orchestrator -/

lemma selectTranscript_nil : ∀ langs, selectTranscript [] langs = none := by
  intro langs
  induction langs with
  | nil => rfl
  | cons l rest ih => simp [selectTranscript, find_transcript, ih]

/-- Claim C3: a terminal listing failure on attempt 1 — transcripts
disabled, video unavailable, or no track at all — makes
`fetch_transcript_with_retry` fail immediately with that error: the
provider's listing call runs exactly once and no back-off sleep happens. -/
theorem claim_C3 (p : Provider) (video_id : String) (language_codes : List String) :
    (p.listTranscripts 0 = .error .transcriptsDisabled →
      fetch_transcript_with_retry p video_id language_codes 3
        = (.error .transcriptsDisabled, ⟨1, []⟩))
    ∧ (p.listTranscripts 0 = .error .videoUnavailable →
      fetch_transcript_with_retry p video_id language_codes 3
        = (.error .videoUnavailable, ⟨1, []⟩))
    ∧ (p.listTranscripts 0 = .ok [] →
      fetch_transcript_with_retry p video_id language_codes 3
        = (.error (.noTranscriptFound ("No transcripts available for video " ++ video_id)),
            ⟨1, []⟩)) := by
  refine ⟨fun h => ?_, fun h => ?_, fun h => ?_⟩ <;>
    simp [fetch_transcript_with_retry, fetchGo, h, attemptDispatch, selectTranscript_nil]

/-- Claim C4: with three attempts, a parse failure of the content fetch on
attempts 1 and 2 followed by success on attempt 3 yields the attempt-3
result with no error, sleeping `2^(attempt-1)` seconds (1s then 2s) between
attempts; three parse failures yield the descriptive parse-failure error
naming the attempt count. -/
theorem claim_C4 (p : Provider) (video_id : String) (language_codes : List String)
    (tracks : List Track) (t : Track) (used : String) :
    ((∀ n, p.listTranscripts n = .ok tracks) →
      selectTranscript tracks language_codes = some (t, used) →
      ∀ m0 m1 data, p.fetch 0 t = .error (.xmlParseError m0) →
        p.fetch 1 t = .error (.xmlParseError m1) →
        p.fetch 2 t = .ok data →
        fetch_transcript_with_retry p video_id language_codes 3
          = (.ok (data, used), ⟨3, [1, 2]⟩))
    ∧ ((∀ n, p.listTranscripts n = .ok tracks) →
      selectTranscript tracks language_codes = some (t, used) →
      (∀ n, ∃ m, p.fetch n t = .error (.xmlParseError m)) →
      fetch_transcript_with_retry p video_id language_codes 3
        = (.error (.genericException
            "Failed to parse transcript XML after 3 attempts. This might be due to YouTube API changes or rate limiting."),
          ⟨3, [1, 2]⟩)) := by
  constructor
  · intro hl hs m0 m1 data h0 h1 h2
    simp [fetch_transcript_with_retry, fetchGo, hl 0, hl 1, hl 2, hs, h0, h1, h2]
  · intro hl hs hf
    obtain ⟨m0, h0⟩ := hf 0
    obtain ⟨m1, h1⟩ := hf 1
    obtain ⟨m2, h2⟩ := hf 2
    simp [fetch_transcript_with_retry, fetchGo, hl 0, hl 1, hl 2, hs, h0, h1, h2]
    rfl

/-- Claim C5: track selection picks the first language of the preference
list having a matching track (and then the first such track); when none
matches it falls back to the provider's first enumerated track, reporting
that track's language code as used — in particular, with preference
`["en"]` and a single `"es"` track, the used language is `"es"`. -/
theorem claim_C5 :
    (∀ (tracks : List Track) (langs : List String) (l : String),
      langs.find? (fun lang => tracks.any (fun t => t.language_code == lang)) = some l →
      ∃ t, find_transcript tracks l = some t
        ∧ selectTranscript tracks langs = some (t, l))
    ∧ (∀ (tracks : List Track) (langs : List String),
      langs.find? (fun lang => tracks.any (fun t => t.language_code == lang)) = none →
      selectTranscript tracks langs = tracks.head?.map (fun t => (t, t.language_code)))
    ∧ (∀ (p : Provider) (video_id : String) (t : Track) (data : List Segment),
      t.language_code = "es" →
      p.listTranscripts 0 = .ok [t] →
      p.fetch 0 t = .ok data →
      (fetch_transcript_with_retry p video_id ["en"] 3).1 = .ok (data, "es")) := by
  refine ⟨?_, ?_, ?_⟩
  · intro tracks langs
    induction langs with
    | nil => intro l h; simp at h
    | cons lang rest ih =>
      intro l h
      rw [List.find?_cons] at h
      cases hp : tracks.any (fun t => t.language_code == lang) with
      | true =>
        rw [hp] at h
        obtain rfl : lang = l := by simpa using h
        have hsome : (tracks.find? (fun t => t.language_code == lang)).isSome := by
          rw [List.find?_isSome]
          simpa using List.any_eq_true.mp hp
        obtain ⟨t, ht⟩ := Option.isSome_iff_exists.mp hsome
        exact ⟨t, ht, by simp [selectTranscript, find_transcript, ht]⟩
      | false =>
        rw [hp] at h
        simp only [] at h
        have hnone : find_transcript tracks lang = none := by
          rw [find_transcript, List.find?_eq_none]
          intro x hx
          have := List.any_eq_false.mp hp x hx
          simpa using this
        obtain ⟨t, ht, hsel⟩ := ih l h
        exact ⟨t, ht, by simp [selectTranscript, hnone, hsel]⟩
  · intro tracks langs
    induction langs with
    | nil =>
      intro _
      cases tracks with
      | nil => rfl
      | cons t rest => rfl
    | cons lang rest ih =>
      intro h
      rw [List.find?_cons] at h
      cases hp : tracks.any (fun t => t.language_code == lang) with
      | true =>
        rw [hp] at h
        exact absurd h (by simp)
      | false =>
        rw [hp] at h
        simp only [] at h
        have hnone : find_transcript tracks lang = none := by
          rw [find_transcript, List.find?_eq_none]
          intro x hx
          have := List.any_eq_false.mp hp x hx
          simpa using this
        simp [selectTranscript, hnone, ih h]
  · intro p video_id t data hes hl hf
    simp [fetch_transcript_with_retry, fetchGo, hl, hf, selectTranscript,
      find_transcript, hes]

/-! ### Matcher lemmas and claims C2, C7, C9 -/

lemma capsOr_none (x : Option (List Char)) : capsOr none x = x := rfl

/- Constructor-wise equations of `matchesF`, for targeted rewriting. -/

lemma matchesF_seq (a b : RE) (l : List Char) :
    matchesF (.seq a b) l
      = (matchesF a l).flatMap
          (fun r => (matchesF b r.1).map (fun r2 => (r2.1, capsOr r.2 r2.2))) := rfl

lemma matchesF_alt (a b : RE) (l : List Char) :
    matchesF (.alt a b) l = matchesF a l ++ matchesF b l := rfl

lemma matchesF_group (a : RE) (l : List Char) :
    matchesF (.group a) l
      = (matchesF a l).map (fun r => (r.1, some (l.take (l.length - r.1.length)))) := rfl

lemma matchesF_lit (s l : List Char) :
    matchesF (.lit s) l = if s.isPrefixOf l then [(l.drop s.length, none)] else [] := rfl

lemma matchesF_dollar (l : List Char) :
    matchesF .dollar l = if l = [] ∨ l = ['\n'] then [(l, none)] else [] := rfl

lemma matchesF_cls_nil (p : Char → Bool) : matchesF (.cls p) [] = [] := rfl

lemma matchesF_cls_cons (p : Char → Bool) (c : Char) (rest : List Char) :
    matchesF (.cls p) (c :: rest) = if p c = true then [(rest, none)] else [] := rfl

lemma matchesF_star (a : RE) (l : List Char) :
    matchesF (.star a) l = starGo (matchesF a) (l.length + 1) l := rfl

lemma starGo_succ (m : List Char → List (List Char × Option (List Char)))
    (fuel : Nat) (l : List Char) :
    starGo m (fuel + 1) l
      = (((m l).filter (fun r => r.1.length < l.length)).flatMap
          (fun r => (starGo m fuel r.1).map (fun r2 => (r2.1, capsOr r.2 r2.2))))
        ++ [(l, none)] := rfl

lemma matchesF_repN_cls (p : Char → Bool) :
    ∀ (n : Nat) (l : List Char),
      matchesF (RE.repN n (.cls p)) l
        = if n ≤ l.length ∧ (l.take n).all p = true then [(l.drop n, none)] else [] := by
  intro n
  induction n with
  | zero => intro l; simp [RE.repN, matchesF]
  | succ n ih =>
    intro l
    cases l with
    | nil => simp [RE.repN, matchesF]
    | cons c r =>
      simp only [RE.repN, matchesF]
      by_cases hpc : p c = true
      · simp only [hpc, if_true, List.flatMap_cons, List.flatMap_nil, List.append_nil,
          ih r, capsOr]
        by_cases hcond : n ≤ r.length ∧ (r.take n).all p = true
        · simp [hcond, hpc, Nat.succ_le_succ_iff]
        · simp only [if_neg hcond, List.map_nil]
          rw [if_neg]
          simp only [List.length_cons, List.take_succ_cons, List.all_cons, hpc,
            Bool.true_and, Nat.succ_le_succ_iff]
          exact hcond
      · simp only [Bool.not_eq_true] at hpc
        simp only [hpc, Bool.false_eq_true, if_false, List.flatMap_nil]
        rw [if_neg]
        simp only [List.take_succ_cons, List.all_cons, hpc, Bool.false_and]
        rintro ⟨-, h⟩
        exact Bool.false_ne_true h

lemma validate_iff (s : String) :
    validate_video_id s = true
      ↔ 11 ≤ s.data.length ∧ (s.data.take 11).all isVideoIdChar = true
          ∧ (s.data.drop 11 = [] ∨ s.data.drop 11 = ['\n']) := by
  unfold validate_video_id re_match videoIdAnchored
  rw [matchesF_seq, matchesF_repN_cls]
  by_cases hcond : 11 ≤ s.data.length ∧ (s.data.take 11).all isVideoIdChar = true
  · obtain ⟨h1, h2⟩ := hcond
    rw [if_pos (And.intro h1 h2)]
    simp only [List.flatMap_cons, List.flatMap_nil, List.append_nil, matchesF_dollar]
    by_cases hd : s.data.drop 11 = [] ∨ s.data.drop 11 = ['\n']
    · rw [if_pos hd]
      exact iff_of_true (by simp) ⟨h1, h2, hd⟩
    · rw [if_neg hd]
      exact iff_of_false (by simp) (fun h => hd h.2.2)
  · rw [if_neg hcond]
    simp only [List.flatMap_nil, List.isEmpty_nil, Bool.not_true, Bool.false_eq_true,
      false_iff]
    rintro ⟨ha, hb, -⟩
    exact hcond ⟨ha, hb⟩

/-- Claim C2 as stated is falsified by a 12-character string: the source
validates with `re.match(r'^[a-zA-Z0-9_-]{11}$', ...)`, and Python `$` also
matches just before a single newline at the end of the string. -/
theorem claim_C2_counterexample :
    validate_video_id "dQw4w9WgXcQ\n" = true ∧ ("dQw4w9WgXcQ\n").length ≠ 11 := by
  constructor <;> decide

/-- Claim C2 (amended): `validate_video_id` returns true iff the string is
exactly 11 characters of `[A-Za-z0-9_-]`, or 11 such characters followed by
exactly one trailing newline (Python `$` semantics); it returns false for
every other string. -/
theorem claim_C2 (s : String) :
    validate_video_id s = true
      ↔ ((s.data.length = 11 ∧ s.data.all isVideoIdChar = true)
        ∨ ((s.data.take 11).all isVideoIdChar = true ∧ s.data.drop 11 = ['\n'])) := by
  rw [validate_iff]
  constructor
  · rintro ⟨h1, h2, h3 | h3⟩
    · left
      have hlen : s.data.length = 11 := le_antisymm (List.drop_eq_nil_iff.mp h3) h1
      exact ⟨hlen, by rwa [List.take_of_length_le (le_of_eq hlen)] at h2⟩
    · right
      exact ⟨h2, h3⟩
  · rintro (⟨h1, h2⟩ | ⟨h2, h3⟩)
    · refine ⟨le_of_eq h1.symm, ?_, Or.inl (List.drop_eq_nil_iff.mpr (le_of_eq h1))⟩
      rwa [List.take_of_length_le (le_of_eq h1)]
    · refine ⟨?_, h2, Or.inr h3⟩
      by_contra hlt
      push_neg at hlt
      have hnil : s.data.drop 11 = [] := List.drop_eq_nil_iff.mpr (le_of_lt hlt)
      rw [hnil] at h3
      exact List.cons_ne_nil _ _ h3.symm

lemma lit_isPrefixOf_false {s l : List Char} {c : Char} (hc : c ∈ s)
    (hbad : isVideoIdChar c = false) (hl : ∀ x ∈ l, isVideoIdChar x = true) :
    s.isPrefixOf l = false := by
  by_contra h
  rw [Bool.not_eq_false] at h
  have hpre : s <+: l := List.isPrefixOf_iff_prefix.mp h
  have hcl : c ∈ l := hpre.subset hc
  rw [hl c hcl] at hbad
  exact absurd hbad (by decide)

/-- No alternative of pattern 1's starred group can match inside a string
whose characters all come from the id alphabet: every alternative contains
a character (`=`, `/`, `.`, `?`) outside that alphabet. -/
lemma p1Alts_no_match {l : List Char} (hl : ∀ x ∈ l, isVideoIdChar x = true) :
    matchesF p1Alts l = [] := by
  have h1 : ("v=".data).isPrefixOf l = false :=
    lit_isPrefixOf_false (c := '=') (by decide) (by decide) hl
  have h2 : ("v/".data).isPrefixOf l = false :=
    lit_isPrefixOf_false (c := '/') (by decide) (by decide) hl
  have h3 : ("vi=".data).isPrefixOf l = false :=
    lit_isPrefixOf_false (c := '=') (by decide) (by decide) hl
  have h4 : ("vi/".data).isPrefixOf l = false :=
    lit_isPrefixOf_false (c := '/') (by decide) (by decide) hl
  have h5 : ("youtu.be/".data).isPrefixOf l = false :=
    lit_isPrefixOf_false (c := '.') (by decide) (by decide) hl
  have h6 : ("embed/".data).isPrefixOf l = false :=
    lit_isPrefixOf_false (c := '/') (by decide) (by decide) hl
  have h7 : ("/v/".data).isPrefixOf l = false :=
    lit_isPrefixOf_false (c := '/') (by decide) (by decide) hl
  have h8 : ("/e/".data).isPrefixOf l = false :=
    lit_isPrefixOf_false (c := '/') (by decide) (by decide) hl
  have h9 : ("watch?v=".data).isPrefixOf l = false :=
    lit_isPrefixOf_false (c := '?') (by decide) (by decide) hl
  have h10 : ("youtube.com/user/".data).isPrefixOf l = false :=
    lit_isPrefixOf_false (c := '.') (by decide) (by decide) hl
  simp [p1Alts, relit, matchesF_alt, matchesF_lit, matchesF_seq,
    h1, h2, h3, h4, h5, h6, h7, h8, h9, h10]

lemma matchesF_star_of_body_nil {a : RE} {l : List Char} (h : matchesF a l = []) :
    matchesF (.star a) l = [(l, none)] := by
  rw [matchesF_star]
  simp [starGo, h]

lemma starGo_cls_head (p : Char → Bool) :
    ∀ (l : List Char) (fuel : Nat), l.length ≤ fuel → (∀ x ∈ l, p x = true) →
      (starGo (matchesF (.cls p)) (fuel + 1) l).head? = some ([], none) := by
  intro l
  induction l with
  | nil =>
    intro fuel _ _
    simp [starGo, matchesF_cls_nil]
  | cons c r ih =>
    intro fuel hfuel hall
    have hpc : p c = true := hall c (List.mem_cons_self c r)
    obtain ⟨fuel2, rfl⟩ : ∃ f, fuel = f + 1 := ⟨fuel - 1, by simp at hfuel; omega⟩
    have hr : ∀ x ∈ r, p x = true := fun x hx => hall x (List.mem_cons_of_mem c hx)
    have hrlen : r.length ≤ fuel2 := by simp at hfuel; omega
    have hfil : (matchesF (.cls p) (c :: r)).filter
        (fun x => x.1.length < (c :: r).length) = [(r, none)] := by
      rw [matchesF_cls_cons, hpc, if_pos rfl]
      simp
    rw [starGo_succ, hfil]
    simp only [List.flatMap_cons, List.flatMap_nil, List.append_nil]
    rw [List.head?_append, List.head?_map, ih fuel2 hrlen hr]
    rfl

lemma matchesF_star_cls_head (p : Char → Bool) {l : List Char}
    (hl : ∀ x ∈ l, p x = true) :
    (matchesF (.star (.cls p)) l).head? = some ([], none) := by
  rw [matchesF_star]
  exact starGo_cls_head p l l.length le_rfl hl

lemma idChar_not_special {c : Char} (h : isVideoIdChar c = true) :
    (!(c == '#' || c == '&' || c == '?')) = true := by
  cases hb : (c == '#' || c == '&' || c == '?') with
  | false => simp [hb]
  | true =>
    exfalso
    simp only [Bool.or_eq_true, beq_iff_eq] at hb
    rcases hb with (rfl | rfl) | rfl <;> exact absurd h (by decide)

/-- On an id-alphabet string, pattern 1's committed match at position 0
consumes nothing with the star (no alternative matches) and everything with
the capture group, so group 1 is the whole string. -/
lemma pattern1_head {l : List Char} (hl : ∀ x ∈ l, isVideoIdChar x = true) :
    (matchesF pattern1 l).head? = some ([], some l) := by
  have hstar : matchesF (.star p1Alts) l = [(l, none)] :=
    matchesF_star_of_body_nil (p1Alts_no_match hl)
  have hcls : ∀ x ∈ l, (fun c => !(c == '#' || c == '&' || c == '?')) x = true :=
    fun x hx => idChar_not_special (hl x hx)
  have hhead := matchesF_star_cls_head _ hcls
  rw [pattern1, matchesF_seq, hstar]
  simp only [List.flatMap_cons, List.flatMap_nil, List.append_nil, matchesF_group,
    List.map_map]
  rw [List.head?_map, hhead]
  simp [capsOr, List.take_length]

lemma re_search_pattern1_id {s : String} (hlen : s.data.length = 11)
    (hl : ∀ x ∈ s.data, isVideoIdChar x = true) :
    re_search pattern1 s = some (some s.data) := by
  unfold re_search
  cases hd : s.data with
  | nil => rw [hd] at hlen; simp at hlen
  | cons c rest =>
    rw [hd] at hl
    have hh := pattern1_head (l := c :: rest) hl
    cases hm : matchesF pattern1 (c :: rest) with
    | nil => rw [hm] at hh; exact absurd hh (by simp)
    | cons a t =>
      rw [hm] at hh
      simp only [List.head?_cons, Option.some.injEq] at hh
      subst hh
      simp [searchAux, hm]

lemma flatMap_ne_nil {α β : Type} {L : List α} {x : α} (h : L.head? = some x)
    {g : α → List β} (hg : g x ≠ []) : L.flatMap g ≠ [] := by
  cases L with
  | nil => simp at h
  | cons a t =>
    simp only [List.head?_cons, Option.some.injEq] at h
    subst h
    simp only [List.flatMap_cons]
    intro hcontra
    exact hg (List.append_eq_nil.mp hcontra).1

/-- An id-alphabet string passes the `^[a-zA-Z0-9_-]+$` check of
`extract_video_id`. -/
lemma idPlus_match {l : List Char} (hne : l ≠ [])
    (hl : ∀ x ∈ l, isVideoIdChar x = true) :
    re_match videoIdPlusAnchored (String.mk l) = true := by
  unfold re_match videoIdPlusAnchored RE.plus
  show (!(matchesF (.seq (.seq (.cls isVideoIdChar) (.star (.cls isVideoIdChar))) .dollar)
    l).isEmpty) = true
  cases l with
  | nil => exact absurd rfl hne
  | cons c rest =>
    have hpc : isVideoIdChar c = true := hl c (List.mem_cons_self c rest)
    have hrest : ∀ x ∈ rest, isVideoIdChar x = true :=
      fun x hx => hl x (List.mem_cons_of_mem c hx)
    rw [matchesF_seq, matchesF_seq, matchesF_cls_cons, hpc, if_pos rfl]
    simp only [List.flatMap_cons, List.flatMap_nil, List.append_nil]
    have hhead : ((matchesF (.star (.cls isVideoIdChar)) rest).map
        (fun r2 => (r2.1, capsOr none r2.2))).head? = some ([], none) := by
      rw [List.head?_map, matchesF_star_cls_head _ hrest]
      rfl
    have hne2 := flatMap_ne_nil hhead
      (g := fun r => (matchesF .dollar r.1).map (fun r2 => (r2.1, capsOr r.2 r2.2)))
      (by simp [matchesF_dollar])
    simpa [List.isEmpty_iff] using hne2

/-- Claim C9: any bare 11-character id-alphabet string — no URL structure at
all — is returned unchanged by `extract_video_id` (pattern 1's star matches
zero times and its capture group grabs the whole string, which passes the
length/alphabet check). -/
theorem claim_C9 (s : String) (hlen : s.length = 11)
    (hall : s.data.all isVideoIdChar = true) :
    extract_video_id s = .ok s := by
  have hl : ∀ x ∈ s.data, isVideoIdChar x = true := by
    intro x hx
    exact List.all_eq_true.mp hall x hx
  have hlen' : s.data.length = 11 := hlen
  have hne : s.data ≠ [] := by
    intro h
    rw [h] at hlen'
    simp at hlen'
  have hsearch := re_search_pattern1_id hlen' hl
  have hmatch := idPlus_match hne hl
  have hcheck : checkCandidate s.data = true := by
    unfold checkCandidate
    rw [hlen', hmatch]
    rfl
  have htry : tryPattern pattern1 s = some s := by
    unfold tryPattern
    rw [hsearch]
    show (if checkCandidate s.data = true then some (String.mk s.data) else none) = some s
    rw [hcheck]
    rfl
  unfold extract_video_id
  rw [htry]

set_option maxRecDepth 40000 in
/-- Witness for claim C9 at the concrete id `"dQw4w9WgXcQ"`. -/
theorem claim_C9_witness :
    ("dQw4w9WgXcQ" : String).length = 11
      ∧ extract_video_id "dQw4w9WgXcQ" = .ok "dQw4w9WgXcQ" :=
  ⟨by decide, claim_C9 "dQw4w9WgXcQ" (by decide) (by decide)⟩

set_option maxRecDepth 40000 in
/-- Claim C7: `extract_video_id` yields `"dQw4w9WgXcQ"` on the three URL
shapes and raises the invalid-reference error (`YouTubeURLError`) on
`"not a url"`. -/
theorem claim_C7 :
    extract_video_id "https://www.youtube.com/watch?v=dQw4w9WgXcQ" = .ok "dQw4w9WgXcQ"
    ∧ extract_video_id "https://youtu.be/dQw4w9WgXcQ" = .ok "dQw4w9WgXcQ"
    ∧ extract_video_id "https://www.youtube.com/embed/dQw4w9WgXcQ" = .ok "dQw4w9WgXcQ"
    ∧ extract_video_id "not a url"
        = .error (.youTubeURLError "Could not extract valid video ID from URL: not a url") := by
  refine ⟨?_, ?_, ?_, ?_⟩ <;> decide

/-! ### Claims C1, C8, C10: the tool boundary -/

/-- Claim C8: the resource-style accessor returns exactly what
`get_transcript_from_id` returns on the same id with its default arguments
(`language = "en"`, `format_type = "text"`). -/
theorem claim_C8 (p : Provider) (video_id : String) :
    get_transcript_resource p video_id
      = get_transcript_from_id p video_id "en" "text" := rfl

lemma prefix_self_append (a b : String) : a.data.isPrefixOf (a ++ b).data = true := by
  rw [String.data_append a b]
  exact List.isPrefixOf_iff_prefix.mpr (List.prefix_append _ _)

/-- Claim C10: the format dispatch compares `format_type` only through
`lower()` (so it is case-insensitive), and every value other than
`json`/`raw` — not just `text` — silently falls through to the text format
with the `Transcript for ... (Language: ...)` header, never an
unknown-format error. -/
theorem claim_C10 (p : Provider) (url vid language ft ft2 : String)
    (data : List Segment) (used : String) :
    (pyLower ft = pyLower ft2 →
      get_transcript_from_id p vid language ft = get_transcript_from_id p vid language ft2
      ∧ get_transcript_from_url p url language ft
          = get_transcript_from_url p url language ft2)
    ∧ (pyLower ft ≠ "json" → pyLower ft ≠ "raw" →
      (validate_video_id vid = true →
        (fetch_transcript_with_retry p vid
          (if language != "en" then [language, "en"] else ["en"])).1 = .ok (data, used) →
        get_transcript_from_id p vid language ft
          = "Transcript for video " ++ vid ++ " (Language: " ++ used ++ "):\n\n"
            ++ format_transcript_text data)
      ∧ (∀ v, extract_video_id url = .ok v →
        (fetch_transcript_with_retry p v
          (if language != "en" then [language, "en"] else ["en"])).1 = .ok (data, used) →
        get_transcript_from_url p url language ft
          = "Transcript for " ++ url ++ " (Language: " ++ used ++ "):\n\n"
            ++ format_transcript_text data)) := by
  constructor
  · intro h
    constructor
    · unfold get_transcript_from_id
      rw [h]
    · unfold get_transcript_from_url
      rw [h]
  · intro hj hr
    have hj' : (pyLower ft == "json") = false := beq_eq_false_iff_ne.mpr hj
    have hr' : (pyLower ft == "raw") = false := beq_eq_false_iff_ne.mpr hr
    constructor
    · intro hv hfetch
      unfold get_transcript_from_id
      rw [hv]
      simp only [Bool.not_true, Bool.false_eq_true, if_false, hfetch, hj', hr']
    · intro v hok hfetch
      unfold get_transcript_from_url
      rw [hok]
      simp only [hfetch, hj', hr', Bool.false_eq_true, if_false]

/-- Claim C1: the three public operations are total `String`-valued
functions (no exception escapes the boundary in the model, by
construction); every error the pipeline can produce is converted to its
category-prefixed string by the tool's `except` chain, and errors outside
the named taxonomy are rendered as `Unexpected error: <original message>`. -/
theorem claim_C1 (p : Provider) (url vid uoi language ft : String) (e : PyErr) :
    (categoryPrefixed (urlToolErrString e) = true
      ∧ categoryPrefixed (idToolErrString e) = true)
    ∧ (∀ m, urlToolErrString (.genericException m) = "Unexpected error: " ++ m
        ∧ idToolErrString (.genericException m) = "Unexpected error: " ++ m)
    ∧ (extract_video_id url = .error e →
        get_transcript_from_url p url language ft = urlToolErrString e)
    ∧ (∀ v, extract_video_id url = .ok v →
        (fetch_transcript_with_retry p v
          (if language != "en" then [language, "en"] else ["en"])).1 = .error e →
        get_transcript_from_url p url language ft = urlToolErrString e)
    ∧ (validate_video_id vid = true →
        (fetch_transcript_with_retry p vid
          (if language != "en" then [language, "en"] else ["en"])).1 = .error e →
        get_transcript_from_id p vid language ft = idToolErrString e)
    ∧ (extract_video_id uoi = .ok vid → p.listTranscripts 0 = .error e →
        list_available_transcripts p uoi = idToolErrString e)
    ∧ (∀ e2, extract_video_id uoi = .error e2 → validate_video_id uoi = true →
        p.listTranscripts 0 = .error e →
        list_available_transcripts p uoi = idToolErrString e) := by
  refine ⟨⟨?_, ?_⟩, ?_, ?_, ?_, ?_, ?_, ?_⟩
  · cases e <;> simp [urlToolErrString, categoryPrefixed, prefix_self_append]
  · cases e <;> simp [idToolErrString, categoryPrefixed, prefix_self_append]
  · intro m
    exact ⟨rfl, rfl⟩
  · intro h
    unfold get_transcript_from_url
    rw [h]
  · intro v hok hfetch
    unfold get_transcript_from_url
    rw [hok]
    simp only [hfetch]
  · intro hv hfetch
    unfold get_transcript_from_id
    rw [hv]
    simp only [Bool.not_true, Bool.false_eq_true, if_false, hfetch]
  · intro hok hlist
    unfold list_available_transcripts
    rw [hok]
    simp only [hlist]
  · intro e2 hx hv hlist
    unfold list_available_transcripts
    rw [hx, hv]
    simp only [Bool.not_true, Bool.false_eq_true, if_false, hlist]

/-! ### Witnesses -/

/-- Witness for claim C3 at concrete providers. -/
theorem claim_C3_witness :
    fetch_transcript_with_retry provDisabled "vid" ["en"] 3
        = (.error .transcriptsDisabled, ⟨1, []⟩)
    ∧ fetch_transcript_with_retry provUnavailable "vid" ["en"] 3
        = (.error .videoUnavailable, ⟨1, []⟩)
    ∧ fetch_transcript_with_retry provEmpty "vid" ["en"] 3
        = (.error (.noTranscriptFound "No transcripts available for video vid"), ⟨1, []⟩) :=
  ⟨(claim_C3 provDisabled "vid" ["en"]).1 rfl,
   (claim_C3 provUnavailable "vid" ["en"]).2.1 rfl,
   (claim_C3 provEmpty "vid" ["en"]).2.2 rfl⟩

/-- Witness for claim C4: parse failures on attempts 1 and 2, success on 3;
and parse failures on every attempt. -/
theorem claim_C4_witness :
    fetch_transcript_with_retry provParse23 "vid" ["es"] 3
        = (.ok ([esSegment], "es"), ⟨3, [1, 2]⟩)
    ∧ fetch_transcript_with_retry provParseAll "vid" ["es"] 3
        = (.error (.genericException
            "Failed to parse transcript XML after 3 attempts. This might be due to YouTube API changes or rate limiting."),
          ⟨3, [1, 2]⟩) :=
  ⟨(claim_C4 provParse23 "vid" ["es"] [esTrack] esTrack "es").1
      (fun _ => rfl) rfl "bad" "bad" [esSegment] rfl rfl rfl,
   (claim_C4 provParseAll "vid" ["es"] [esTrack] esTrack "es").2
      (fun _ => rfl) rfl (fun _ => ⟨"bad", rfl⟩)⟩

/-- Witness for claim C5: a preferred-language hit, the no-match fallback,
and the end-to-end `"es"` fallback run. -/
theorem claim_C5_witness :
    (∃ t, find_transcript [esTrack] "es" = some t
      ∧ selectTranscript [esTrack] ["es"] = some (t, "es"))
    ∧ selectTranscript [esTrack] ["en"]
        = ([esTrack].head?.map (fun t => (t, t.language_code)))
    ∧ (fetch_transcript_with_retry provEs "vid" ["en"] 3).1 = .ok ([esSegment], "es") :=
  ⟨claim_C5.1 [esTrack] ["es"] "es" rfl,
   claim_C5.2.1 [esTrack] ["en"] rfl,
   claim_C5.2.2 provEs "vid" esTrack [esSegment] rfl rfl rfl⟩

set_option maxRecDepth 40000 in
/-- Witness for claim C1 at concrete inputs: an in-taxonomy error from the
provider, a local URL error, and the listing reporter's conversion. -/
theorem claim_C1_witness :
    get_transcript_from_id provDisabled "dQw4w9WgXcQ" "en" "text"
        = idToolErrString .transcriptsDisabled
    ∧ get_transcript_from_url provDisabled "not a url" "en" "text"
        = urlToolErrString
            (.youTubeURLError "Could not extract valid video ID from URL: not a url")
    ∧ list_available_transcripts provDisabled "dQw4w9WgXcQ"
        = idToolErrString .transcriptsDisabled :=
  ⟨(claim_C1 provDisabled "u" "dQw4w9WgXcQ" "x" "en" "text"
      .transcriptsDisabled).2.2.2.2.1 (by decide) rfl,
   (claim_C1 provDisabled "not a url" "v" "x" "en" "text"
      (.youTubeURLError "Could not extract valid video ID from URL: not a url")).2.2.1
      (by decide),
   (claim_C1 provDisabled "u" "dQw4w9WgXcQ" "dQw4w9WgXcQ" "en" "text"
      .transcriptsDisabled).2.2.2.2.2.1 (by decide) rfl⟩

set_option maxRecDepth 40000 in
/-- Witness for claim C10: `"xml"` and `"XmL"` dispatch identically, and an
unrecognized format falls through to the text rendering. -/
theorem claim_C10_witness :
    get_transcript_from_id provEs "dQw4w9WgXcQ" "en" "xml"
        = get_transcript_from_id provEs "dQw4w9WgXcQ" "en" "XmL"
    ∧ get_transcript_from_id provEs "dQw4w9WgXcQ" "en" "xml"
        = "Transcript for video dQw4w9WgXcQ (Language: es):\n\n"
          ++ format_transcript_text [esSegment] :=
  ⟨((claim_C10 provEs "u" "dQw4w9WgXcQ" "en" "xml" "XmL" [esSegment] "es").1
      (by decide)).1,
   ((claim_C10 provEs "u" "dQw4w9WgXcQ" "en" "xml" "XmL" [esSegment] "es").2
      (by decide) (by decide)).1 (by decide) rfl⟩

end YT
